import Mathlib

set_option linter.unusedVariables false

/-!
Verification development for the in4apene security-assistant repository.

The repository is a conversational front-end with two transport variants:
`src/gradio_server.py` (function `predict`) and `src/main.py` (function
`handle_app_mention`).  Both route each inbound message either into a fixed
security-audit questionnaire, into a "start questionnaire" prompt, or into a
language-model agent path, keeping per-session state in an in-memory table.
A separate, older tool module `src/tools/jenkins_tool.py` holds a second
CI-trigger implementation (`run_jenkins_job`) used by `src/agent.py`.

This file shallowly embeds that logic: Python dicts become association lists,
the session table entry for the current key becomes an `Option Session`,
outbound effects (HTTP, SQLite, the language-model call) become values of an
environment record describing each delegate's outcome, and Python exceptions
become `Except`, with the handlers' `try/except` blocks embedded as an inner
fallible function plus an outer catch.
-/

namespace In4apene

/-- The eight mobile questions, verbatim from the source (both variants define
the identical list). -/
def MOBILE_QUESTIONS : List String :=
  [ "Does the mobile app have any force-update functionality?",
    "Is there a disclosure policy in place?",
    "Does the app comply with privacy laws and regulations?",
    "Is biometric authentication used?",
    "Does your application have 2FA?",
    "Is there any app-level encryption (apart from HTTPS)?",
    "How many file upload endpoints does the application have?",
    "Does this mobile application contact a server via the internet? If yes, what is the URL?" ]

/-- The thirteen web questions, verbatim from the source. -/
def WEB_QUESTIONS : List String :=
  [ "What is the website URL?",
    "Are websockets used in the project?",
    "Does the application make use of web messaging?",
    "How many file upload endpoints does the application have?",
    "Does the project use Flash?",
    "Are there different roles in the application (like admin, employee & customer)?",
    "Do your users log in via a username they can set by themselves?",
    "Is there any sort of in-app encryption (apart from HTTPS)?",
    "Are there multiple ways to log in (like email/password and OTP)?",
    "Are cookies used to maintain sessions?",
    "Is there any password recovery functionality?",
    "Does the project use GraphQL?",
    "Does the project use OAuth?" ]

/-- Helper for `strContains`: does `pat` occur as a contiguous run in the
character list? -/
def infixOfAux (pat : List Char) : List Char → Bool
  | [] => pat.isEmpty
  | c :: cs => pat.isPrefixOf (c :: cs) || infixOfAux pat cs

/-- Python's `pat in s` substring test. -/
def strContains (s pat : String) : Bool :=
  infixOfAux pat.toList s.toList

/-- Python's `str.lower()` (ASCII range, which covers every keyword the
routers test for).  Defined over the character list so that it reduces
structurally. -/
def pyLower (s : String) : String :=
  String.mk (s.data.map Char.toLower)

/-- Python truthiness of an `os.getenv` result: `None` and the empty string are
falsy, any other string is truthy. -/
def envPresent : Option String → Bool
  | none => false
  | some s => !s.data.isEmpty

/-- One conversation-state dict (`conversation_state[key]`).  Absent dict keys
are `none` / the default; `in_questionnaire` absent reads as falsy via
`state.get`, so it is a plain `Bool`. -/
structure Session where
  in_questionnaire : Bool := false
  project_type : Option String := none
  questions : Option (List String) := none
  question_index : Nat := 0
  answers : List (String × String) := []
  agent_history : List (String × String) := []
deriving Repr, DecidableEq

/-- Python dict assignment `m[k] = v` on an insertion-ordered dict: overwrite
in place if the key exists, else append. -/
def dictInsert (m : List (String × String)) (k v : String) : List (String × String) :=
  if m.any (fun p => p.1 == k) then
    m.map (fun p => if p.1 == k then (k, v) else p)
  else
    m ++ [(k, v)]

/-- The four Jenkins environment variables, each `none` when unset. -/
structure JenkinsConfig where
  url : Option String := none
  user : Option String := none
  token : Option String := none
  jobName : Option String := none
deriving Repr, DecidableEq

/-- Outcome of an attempted `requests.post`: either a response with a status
code, or a transport-level exception carrying its message. -/
inductive HttpResult where
  | ok (code : Nat)
  | exn (msg : String)
deriving Repr, DecidableEq

/-- Outcomes of all external delegates during the handling of one message.
The persistence step has two phases with different failure behavior in the
source: `connect` is the outcome of `sqlite3.connect(DB_FILE)` and `persist`
is the outcome of the subsequent `cursor()` / `execute` / `commit` calls
(reached only when `connect` succeeded). -/
structure Env where
  jenkins : JenkinsConfig := {}
  net : HttpResult := .exn "connection error"
  connect : Except String Unit := .ok ()
  persist : Except String Unit := .ok ()
  agent : Except String String := .ok ""
  openai_key : Option String := none

/-- Message of the `UnboundLocalError` raised by the Gradio variant's
`finally: if conn:` when `sqlite3.connect` itself failed, so the local `conn`
was never bound. -/
def unboundConnErr : String :=
  "cannot access local variable 'conn' where it is not associated with a value"

/-- Python `str(x)` as used by f-string interpolation of a possibly-`None`
environment variable. -/
def pyStr : Option String → String
  | none => "None"
  | some s => s

/-- Python's `all([jenkins_url, jenkins_user, jenkins_token, job_name])`:
all four configuration values are truthy. -/
def jenkinsConfigured (c : JenkinsConfig) : Bool :=
  envPresent c.url && envPresent c.user && envPresent c.token && envPresent c.jobName

/-- Model of `trigger_jenkins_build` from `src/main.py` / `src/gradio_server.py`
(identical in both).  Returns the status text and whether an outbound HTTP
request was issued.  The four env vars are checked for truthiness first; the
`requests.post` + `response.raise_for_status()` pair raises
`RequestException` on transport failure or a 4xx/5xx status, and the
surrounding `try/except` turns either into a failure string. -/
def trigger_jenkins_build (env : Env) (endpoint : String) : String × Bool :=
  if jenkinsConfigured env.jenkins then
    let job := pyStr env.jenkins.jobName
    match env.net with
    | .ok code =>
      if 400 ≤ code then
        ("Failed to trigger Jenkins job '" ++ job ++ "'. Error: HTTP " ++ toString code, true)
      else
        ("Successfully triggered Jenkins job '" ++ job ++ "' for endpoint '" ++ endpoint ++
          "'. Status: " ++ toString code, true)
    | .exn e =>
      ("Failed to trigger Jenkins job '" ++ job ++ "'. Error: " ++ e, true)
  else
    ("Error: Jenkins environment variables (JENKINS_URL, JENKINS_USER, JENKINS_API_TOKEN, JENKINS_JOB_NAME) are not set.",
      false)

/-- Model of `run_jenkins_job` from `src/tools/jenkins_tool.py`.  No configuration
check and no `try/except`: the POST is always attempted (with unset variables
rendered as `None` inside the URL), a transport exception propagates to the
caller (`Except.error`), and only status 201 counts as success
(`raise_for_status` is never called, so a non-201 response still returns a
string). -/
def run_jenkins_job (env : Env) (endpoint : String) : Except String String × Bool :=
  let job := pyStr env.jenkins.jobName
  match env.net with
  | .exn e => (.error e, true)
  | .ok code =>
    if code == 201 then
      (.ok ("Jenkins job '" ++ job ++ "' triggered successfully."), true)
    else
      (.ok ("Failed to trigger Jenkins job '" ++ job ++ "'. Status code: " ++ toString code),
        true)

/-- Which source branch produced the response (one tag per `return` site). -/
inductive Route where
  | qProjectType
  | qReprompt
  | qNext
  | qDone
  | startAudit
  | agentReply
  | noKey
  | caught
deriving Repr, DecidableEq

/-- Observable outcome of handling one message: the response text, the session
table entry for this key afterwards (`none` = absent/deleted), the endpoints
passed to the CI-trigger capability during the step, whether the
language-model agent was invoked, and the branch taken. -/
structure StepResult where
  response : String
  table : Option Session
  ciCalls : List String
  agentInvoked : Bool
  route : Route
deriving Repr, DecidableEq

/-- A raised exception as seen at the outer `except`: the error text, the
session-table entry at the moment of the raise (dict mutations are in place,
so mutations made before the raise persist), and the CI-trigger calls already
made. -/
structure Raised where
  err : String
  table : Option Session
  ciCalls : List String
deriving Repr, DecidableEq

/-- Body of `predict` (`src/gradio_server.py`, lines 154-250), i.e. the code
inside its `try:`.  `sess` is `conversation_state.get(session_id)`; the
project-type sub-state matches the whole lowercased message exactly against
"mobile"/"web"; the final SQLite write is wrapped in its own
`try/except sqlite3.Error`, so a persistence failure still produces the
thank-you-with-caveat message and the session is deleted in both outcomes.
List indexing uses `getD`; reachable states keep the indices in bounds
(`sessionInv` below), so this matches the source's `[...]` indexing. -/
def predict_inner (env : Env) (message : String) (sess : Option Session) :
    Except Raised StepResult :=
  let state := sess.getD {}
  let user_intent := pyLower message
  if state.in_questionnaire then
    match state.questions with
    | none =>
      if user_intent == "mobile" || user_intent == "web" then
        let qs := if user_intent == "mobile" then MOBILE_QUESTIONS else WEB_QUESTIONS
        let state := { state with
          project_type := some user_intent
          questions := some qs
          question_index := 1 }
        .ok { response := qs.getD 0 "", table := some state, ciCalls := [],
              agentInvoked := false, route := .qProjectType }
      else
        .ok { response := "Please specify if your project is 'mobile' or 'web' to continue.",
              table := sess, ciCalls := [], agentInvoked := false, route := .qReprompt }
    | some question_list =>
      let question_index := state.question_index
      let last_question := question_list.getD (question_index - 1) ""
      let state := { state with answers := dictInsert state.answers last_question message }
      let is_web_url_question := strContains last_question "What is the website URL?"
      let is_mobile_url_question := strContains last_question "contact a server via the internet"
      let triggered := is_web_url_question || is_mobile_url_question
      let tool_response := if triggered then (trigger_jenkins_build env message).1 else ""
      let calls := if triggered then [message] else []
      if question_index < question_list.length then
        let next_question := question_list.getD question_index ""
        let state := { state with question_index := question_index + 1 }
        let resp :=
          if tool_response = "" then next_question
          else
            "Okay, I'm starting a scan on that endpoint. " ++ tool_response ++
              "\n\nIn the meantime, let's continue. " ++ next_question
        .ok { response := resp, table := some state, ciCalls := calls,
              agentInvoked := false, route := .qNext }
      else
        -- `try: conn = sqlite3.connect(...); ...; conn.commit(); final_message = ...`
        -- `except sqlite3.Error as e: final_message = <caveat>`
        -- `finally: if conn: conn.close()`
        -- `conn` is bound only inside the `try`: when `sqlite3.connect` itself
        -- raises, the `except` sets the caveat but the `finally` then raises
        -- `UnboundLocalError` reading the never-bound `conn`, which escapes to
        -- the outer handler before `del conversation_state[session_id]`, so
        -- the mutated session stays in the table.
        match env.connect with
        | .error _ =>
          .error { err := unboundConnErr, table := some state, ciCalls := calls }
        | .ok _ =>
          let final_message :=
            match env.persist with
            | .ok _ =>
              "Thank you! All answers have been recorded in the local database. How else can I help you?"
            | .error e =>
              "Thank you! I have your answers. However, I failed to save them to the database: " ++ e
          .ok { response := final_message, table := none, ciCalls := calls,
                agentInvoked := false, route := .qDone }
  else
    let is_audit_request := strContains user_intent "audit" || strContains user_intent "questionnaire"
    let is_tool_request := strContains user_intent "jenkins" || strContains user_intent "mobsf"
    if is_audit_request && !is_tool_request then
      let state := { state with in_questionnaire := true, answers := [] }
      .ok { response := "I can help with that. What kind of project is it - mobile or web?",
            table := some state, ciCalls := [], agentInvoked := false, route := .startAudit }
    else if !(envPresent env.openai_key) then
      .ok { response := "OpenAI API key is not configured. I can't process this request.",
            table := sess, ciCalls := [], agentInvoked := false, route := .noKey }
    else
      match env.agent with
      | .ok output =>
        .ok { response := output, table := sess, ciCalls := [],
              agentInvoked := true, route := .agentReply }
      | .error e => .error { err := e, table := sess, ciCalls := [] }

/-- Function `predict` with its outer `except Exception`: any raised exception
becomes the apology string (the Gradio variant appends a console-logs hint). -/
def predict (env : Env) (message : String) (sess : Option Session) : StepResult :=
  match predict_inner env message sess with
  | .ok r => r
  | .error r =>
    { response := "Sorry, a critical error occurred: " ++ r.err ++
        ". Please check the console logs for more details.",
      table := r.table, ciCalls := r.ciCalls, agentInvoked := true, route := .caught }

/-- Body of `handle_app_mention` (`src/main.py`, lines 159-245), inside its
`try:`.  Differences from the Gradio variant: the project-type sub-state uses
substring matching with "mobile" tested first; the SQLite write is NOT wrapped
in a local `try/except`, so a persistence failure raises out of the
questionnaire branch (carrying the already-mutated session, since the final
answer was recorded in place); the agent path stores its history in the
session; the fixed texts differ slightly. -/
def handle_app_mention_inner (env : Env) (message : String) (sess : Option Session) :
    Except Raised StepResult :=
  let state := sess.getD {}
  let user_intent := pyLower message
  if state.in_questionnaire then
    match state.questions with
    | none =>
      if strContains user_intent "mobile" || strContains user_intent "web" then
        let project_type := if strContains user_intent "mobile" then "mobile" else "web"
        let qs := if project_type == "mobile" then MOBILE_QUESTIONS else WEB_QUESTIONS
        let state := { state with
          project_type := some project_type
          questions := some qs
          question_index := 1 }
        .ok { response := qs.getD 0 "", table := some state, ciCalls := [],
              agentInvoked := false, route := .qProjectType }
      else
        .ok { response := "Please specify if your project is 'mobile' or 'web' to continue.",
              table := sess, ciCalls := [], agentInvoked := false, route := .qReprompt }
    | some question_list =>
      let question_index := state.question_index
      let last_question := question_list.getD (question_index - 1) ""
      let state := { state with answers := dictInsert state.answers last_question message }
      let triggered := strContains last_question "What is the website URL?" ||
        strContains last_question "contact a server via the internet"
      let tool_response := if triggered then (trigger_jenkins_build env message).1 else ""
      let calls := if triggered then [message] else []
      if question_index < question_list.length then
        let next_question := question_list.getD question_index ""
        let state := { state with question_index := question_index + 1 }
        let resp :=
          if tool_response = "" then next_question
          else
            "Okay, I'm starting a scan on that endpoint. " ++ tool_response ++
              "\n\nIn the meantime, let's continue. " ++ next_question
        .ok { response := resp, table := some state, ciCalls := calls,
              agentInvoked := false, route := .qNext }
      else
        -- no `try` here at all: a `sqlite3.Error` from `sqlite3.connect` or
        -- from the cursor/insert/commit propagates directly to the outer
        -- handler, with the mutated session still in the table.
        match env.connect with
        | .error e => .error { err := e, table := some state, ciCalls := calls }
        | .ok _ =>
          match env.persist with
          | .error e => .error { err := e, table := some state, ciCalls := calls }
          | .ok _ =>
            .ok { response := "Thank you! All answers have been recorded. How else can I help?",
                  table := none, ciCalls := calls, agentInvoked := false, route := .qDone }
  else
    let is_audit_request := strContains user_intent "audit" || strContains user_intent "questionnaire"
    let is_tool_request := strContains user_intent "jenkins" || strContains user_intent "mobsf"
    if is_audit_request && !is_tool_request then
      let state := { state with in_questionnaire := true, answers := [] }
      .ok { response := "I can help with that. What kind of project is it - mobile or web?",
            table := some state, ciCalls := [], agentInvoked := false, route := .startAudit }
    else if !(envPresent env.openai_key) then
      .ok { response := "OpenAI API key is not configured.",
            table := sess, ciCalls := [], agentInvoked := false, route := .noKey }
    else
      match env.agent with
      | .ok output =>
        let state := { state with
          agent_history := state.agent_history ++ [("human", message), ("ai", output)] }
        .ok { response := output, table := some state, ciCalls := [],
              agentInvoked := true, route := .agentReply }
      | .error e => .error { err := e, table := sess, ciCalls := [] }

/-- Function `handle_app_mention` with its outer `except Exception`. -/
def handle_app_mention (env : Env) (message : String) (sess : Option Session) : StepResult :=
  match handle_app_mention_inner env message sess with
  | .ok r => r
  | .error r =>
    { response := "Sorry, a critical error occurred: " ++ r.err,
      table := r.table, ciCalls := r.ciCalls, agentInvoked := true, route := .caught }

/-- Invariant of every reachable session-table entry: while the project type
is still unknown the answers dict is empty, and once a question set is chosen
the session is mid-questionnaire, the set is one of the two static lists, the
index stays within `1 ..= length`, and the answer keys are exactly the
questions already asked (`questionSet.take (question_index - 1)`), in order. -/
def SessionInv (s : Session) : Prop :=
  match s.questions with
  | none => s.in_questionnaire = true → s.answers = []
  | some qs =>
      s.in_questionnaire = true ∧
      (qs = MOBILE_QUESTIONS ∨ qs = WEB_QUESTIONS) ∧
      1 ≤ s.question_index ∧ s.question_index ≤ qs.length ∧
      s.answers.map Prod.fst = qs.take (s.question_index - 1)

instance (s : Session) : Decidable (SessionInv s) :=
  match hq : s.questions with
  | none =>
    decidable_of_iff (s.in_questionnaire = true → s.answers = [])
      (by unfold SessionInv; rw [hq])
  | some qs =>
    decidable_of_iff
      (s.in_questionnaire = true ∧
        (qs = MOBILE_QUESTIONS ∨ qs = WEB_QUESTIONS) ∧
        1 ≤ s.question_index ∧ s.question_index ≤ qs.length ∧
        s.answers.map Prod.fst = qs.take (s.question_index - 1))
      (by unfold SessionInv; rw [hq])

/-- The empty environment: no Jenkins configuration, no OpenAI key, transport
failing, persistence succeeding, agent replying with the empty string. -/
def env0 : Env := {}

/-- An environment with full Jenkins configuration and a 201 response. -/
def envJenkinsOk : Env :=
  { jenkins := { url := some "http://jenkins.local", user := some "admin",
                 token := some "tok", jobName := some "scan" },
    net := .ok 201, openai_key := some "sk-test" }

/-- A web questionnaire session right after the project type was chosen: the
next message answers `WEB_QUESTIONS[0]`, the URL-disclosure question. -/
def webStartSession : Session :=
  { in_questionnaire := true, project_type := some "web",
    questions := some WEB_QUESTIONS, question_index := 1, answers := [] }

/-- The first seven mobile questions each answered with "yes". -/
def mobileAnswers7 : List (String × String) :=
  (MOBILE_QUESTIONS.take 7).map (fun q => (q, "yes"))

/-- A mobile questionnaire session at its final question
(`MOBILE_QUESTIONS[7]`, the URL-disclosure question): the next message
finishes the questionnaire. -/
def mobileFinalSession : Session :=
  { in_questionnaire := true, project_type := some "mobile",
    questions := some MOBILE_QUESTIONS, question_index := 8, answers := mobileAnswers7 }

/-- An environment whose persistence write (after a successful connect)
fails. -/
def envPersistFail : Env := { persist := .error "disk full" }

/-- An environment where `sqlite3.connect` itself fails. -/
def envConnectFail : Env := { connect := .error "unable to open database file" }

/-- State `mobileFinalSession` after `message` was recorded in place as the
answer to the final mobile question (the session the raised persistence
failure leaves in the table). -/
def mobileFinalRaised (message : String) : Session :=
  { in_questionnaire := true, project_type := some "mobile",
    questions := some MOBILE_QUESTIONS, question_index := 8,
    answers := mobileAnswers7 ++
      [("Does this mobile application contact a server via the internet? If yes, what is the URL?",
        message)] }

/-- An environment with a configured key whose agent call raises. -/
def envAgentFail : Env := { openai_key := some "sk-test", agent := .error "boom" }

/-- A questionnaire session that is still awaiting the project type. -/
def awaitingTypeSession : Session := { in_questionnaire := true, answers := [] }

/-- The session produced by "I want an audit" followed by "mobile":
`question_index` is already 1 while `answers` is still empty. -/
def c1CexSession : Session :=
  { in_questionnaire := true, project_type := some "mobile",
    questions := some MOBILE_QUESTIONS, question_index := 1, answers := [] }

/-- State `mobileFinalSession` after the final answer was recorded in place
(what the Slack variant leaves in the table when the persistence write then
fails). -/
def c3CexSession : Session :=
  { in_questionnaire := true, project_type := some "mobile",
    questions := some MOBILE_QUESTIONS, question_index := 8,
    answers := mobileAnswers7 ++
      [("Does this mobile application contact a server via the internet? If yes, what is the URL?",
        "https://x.test/app")] }

/-- The web session after its first question was answered with "yes". -/
def webAnsweredSession : Session :=
  { in_questionnaire := true, project_type := some "web", questions := some WEB_QUESTIONS,
    question_index := 2, answers := [("What is the website URL?", "yes")] }

/-! ## Helper lemmas -/

theorem dictInsert_of_not_mem {m : List (String × String)} {k : String} (v : String)
    (h : k ∉ m.map Prod.fst) : dictInsert m k v = m ++ [(k, v)] := by
  have ha : m.any (fun p => p.1 == k) = false := by
    simp only [List.any_eq_false, beq_iff_eq]
    intro p hp hk
    exact h (List.mem_map.mpr ⟨p, hp, hk⟩)
  simp [dictInsert, ha]

theorem mem_dictInsert_self (m : List (String × String)) (k v : String) :
    (k, v) ∈ dictInsert m k v := by
  unfold dictInsert
  split
  · rename_i h
    rw [List.any_eq_true] at h
    obtain ⟨p, hp, hk⟩ := h
    refine List.mem_map.mpr ⟨p, hp, ?_⟩
    simp [hk]
  · simp

theorem mobile_nodup : MOBILE_QUESTIONS.Nodup := by decide

theorem web_nodup : WEB_QUESTIONS.Nodup := by decide

theorem getElem_not_mem_take {qs : List String} (hnd : qs.Nodup) {i : Nat}
    (h : i < qs.length) : qs[i] ∉ qs.take i := by
  intro hmem
  have hd : qs.drop i = qs[i] :: qs.drop (i + 1) := List.drop_eq_getElem_cons h
  have hsplit : qs.take i ++ qs.drop i = qs := List.take_append_drop i qs
  have hnd' : (qs.take i ++ qs.drop i).Nodup := by rw [hsplit]; exact hnd
  have hdisj := (List.nodup_append.mp hnd').2.2
  exact hdisj hmem (by rw [hd]; exact List.mem_cons_self _ _)

theorem getD_inv {sess : Option Session} (hinv : ∀ s, sess = some s → SessionInv s) :
    SessionInv (sess.getD {}) := by
  cases sess with
  | none => decide
  | some s => exact hinv s rfl

theorem getD_questions_none {sess : Option Session}
    (hinv : ∀ s, sess = some s → SessionInv s)
    (hin : ¬(sess.getD {}).in_questionnaire = true) : (sess.getD {}).questions = none := by
  cases sess with
  | none => rfl
  | some s =>
    simp only [Option.getD_some] at *
    cases hq : s.questions with
    | none => rfl
    | some qs =>
      have hs := hinv s rfl
      unfold SessionInv at hs
      simp only [hq] at hs
      exact absurd hs.1 hin

theorem inv_start_questions (st : Session) (hinv : SessionInv st)
    (hin : st.in_questionnaire = true) (hq : st.questions = none)
    (pt : Option String) (qs : List String)
    (hqs : qs = MOBILE_QUESTIONS ∨ qs = WEB_QUESTIONS) :
    SessionInv { st with project_type := pt, questions := some qs, question_index := 1 } := by
  unfold SessionInv at *
  simp only [hq] at hinv
  simp only []
  refine ⟨hin, hqs, le_refl 1, ?_, ?_⟩
  · rcases hqs with rfl | rfl <;> decide
  · rw [hinv hin]
    simp

theorem inv_answer_step (st : Session) (hinv : SessionInv st)
    (hin : st.in_questionnaire = true)
    (qlist : List String) (hq : st.questions = some qlist)
    (hlt : st.question_index < qlist.length) (message : String) :
    SessionInv { st with
      answers := dictInsert st.answers (qlist.getD (st.question_index - 1) "") message,
      question_index := st.question_index + 1 } := by
  unfold SessionInv at *
  simp only [hq] at hinv
  obtain ⟨-, hqs, h1, h2, hkeys⟩ := hinv
  simp only [hq]
  refine ⟨hin, hqs, Nat.succ_le_succ (Nat.zero_le _), hlt, ?_⟩
  have hi : st.question_index - 1 < qlist.length := Nat.lt_of_le_of_lt (Nat.sub_le _ _) hlt
  have hgetD : qlist.getD (st.question_index - 1) "" = qlist[st.question_index - 1] :=
    List.getD_eq_getElem qlist "" hi
  have hnd : qlist.Nodup := by rcases hqs with rfl | rfl; exacts [mobile_nodup, web_nodup]
  have hnotmem : qlist[st.question_index - 1] ∉ st.answers.map Prod.fst := by
    rw [hkeys]; exact getElem_not_mem_take hnd hi
  rw [hgetD, dictInsert_of_not_mem _ hnotmem, List.map_append]
  simp only [List.map_cons, List.map_nil]
  rw [hkeys]
  have hconcat := List.take_concat_get qlist (st.question_index - 1) hi
  rw [List.concat_eq_append] at hconcat
  rw [hconcat]
  congr 1
  omega

theorem inv_start_audit (st : Session) (hq : st.questions = none) :
    SessionInv { st with in_questionnaire := true, answers := [] } := by
  unfold SessionInv
  simp only [hq]
  trivial

theorem inv_agent_history (st : Session) (hinv : SessionInv st)
    (hist : List (String × String)) :
    SessionInv { st with agent_history := hist } := by
  unfold SessionInv at *
  cases hq : st.questions <;> simp only [hq] at hinv ⊢ <;> exact hinv

theorem predict_inner_error_table (env : Env) (message : String) (sess : Option Session)
    (r : Raised) (hconn : env.connect = Except.ok ())
    (h : predict_inner env message sess = .error r) : r.table = sess := by
  simp only [predict_inner] at h
  repeat' split at h
  all_goals first
    | (cases h <;> rfl)
    | simp_all

theorem predict_inner_ok_inv (env : Env) (message : String) (sess : Option Session)
    (hinv : ∀ s, sess = some s → SessionInv s)
    (r : StepResult) (h : predict_inner env message sess = .ok r)
    (s' : Session) (hs' : r.table = some s') : SessionInv s' := by
  simp only [predict_inner] at h
  repeat' split at h
  all_goals cases h
  all_goals simp only [] at hs'
  all_goals
    first
      | exact hinv s' hs'
      | exact Option.noConfusion hs'
      | (obtain rfl := Option.some.inj hs'
         first
           | exact inv_start_questions _ (getD_inv hinv)
               (by assumption) (by assumption) _ _ (Or.inl rfl)
           | exact inv_start_questions _ (getD_inv hinv)
               (by assumption) (by assumption) _ _ (Or.inr rfl)
           | exact inv_answer_step _ (getD_inv hinv)
               (by assumption) _ (by assumption) (by assumption) message
           | exact inv_start_audit _ (getD_questions_none hinv (by assumption)))

theorem predict_table_inv (env : Env) (message : String) (sess : Option Session)
    (hinv : ∀ s, sess = some s → SessionInv s) (hconn : env.connect = Except.ok ())
    (s' : Session) (hs' : (predict env message sess).table = some s') : SessionInv s' := by
  unfold predict at hs'
  cases hpi : predict_inner env message sess with
  | ok r =>
    rw [hpi] at hs'
    exact predict_inner_ok_inv env message sess hinv r hpi s' hs'
  | error r =>
    rw [hpi] at hs'
    simp only [] at hs'
    rw [predict_inner_error_table env message sess r hconn hpi] at hs'
    exact hinv s' hs'

theorem handle_inner_ok_inv (env : Env) (message : String) (sess : Option Session)
    (hinv : ∀ s, sess = some s → SessionInv s)
    (r : StepResult) (h : handle_app_mention_inner env message sess = .ok r)
    (s' : Session) (hs' : r.table = some s') : SessionInv s' := by
  simp only [handle_app_mention_inner] at h
  repeat' split at h
  all_goals cases h
  all_goals simp only [] at hs'
  all_goals
    first
      | exact hinv s' hs'
      | exact Option.noConfusion hs'
      | (obtain rfl := Option.some.inj hs'
         first
           | exact inv_start_questions _ (getD_inv hinv)
               (by assumption) (by assumption) _ _ (Or.inl rfl)
           | exact inv_start_questions _ (getD_inv hinv)
               (by assumption) (by assumption) _ _ (Or.inr rfl)
           | exact inv_answer_step _ (getD_inv hinv)
               (by assumption) _ (by assumption) (by assumption) message
           | exact inv_start_audit _ (getD_questions_none hinv (by assumption))
           | exact inv_agent_history _ (getD_inv hinv) _)

theorem handle_inner_error_table (env : Env) (message : String) (sess : Option Session)
    (r : Raised) (hconn : env.connect = Except.ok ()) (hp : env.persist = Except.ok ())
    (h : handle_app_mention_inner env message sess = .error r) : r.table = sess := by
  simp only [handle_app_mention_inner] at h
  repeat' split at h
  all_goals first
    | (cases h <;> rfl)
    | simp_all

theorem handle_table_inv (env : Env) (message : String) (sess : Option Session)
    (hinv : ∀ s, sess = some s → SessionInv s)
    (hconn : env.connect = Except.ok ()) (hp : env.persist = Except.ok ())
    (s' : Session) (hs' : (handle_app_mention env message sess).table = some s') :
    SessionInv s' := by
  unfold handle_app_mention at hs'
  cases hpi : handle_app_mention_inner env message sess with
  | ok r =>
    rw [hpi] at hs'
    exact handle_inner_ok_inv env message sess hinv r hpi s' hs'
  | error r =>
    rw [hpi] at hs'
    simp only [] at hs'
    rw [handle_inner_error_table env message sess r hconn hp hpi] at hs'
    exact hinv s' hs'

theorem append_ne_empty_left {a : String} (b : String) (ha : a ≠ "") : a ++ b ≠ "" := by
  intro h
  apply ha
  have hd := congrArg String.data h
  rw [String.data_append] at hd
  exact String.ext (List.append_eq_nil.mp hd).1

theorem trigger_ne_empty (env : Env) (endpoint : String) :
    (trigger_jenkins_build env endpoint).1 ≠ "" := by
  unfold trigger_jenkins_build
  repeat' split
  all_goals simp only []
  all_goals first
    | decide
    | (repeat apply append_ne_empty_left
       decide)

theorem inv_answers_length {s : Session} (hinv : SessionInv s)
    (hq : s.questions.isSome = true) : s.answers.length = s.question_index - 1 := by
  unfold SessionInv at hinv
  cases hqq : s.questions with
  | none => rw [hqq] at hq; cases hq
  | some qs =>
    simp only [hqq] at hinv
    obtain ⟨-, -, h1, h2, hkeys⟩ := hinv
    have hlen := congrArg List.length hkeys
    simp only [List.length_map, List.length_take] at hlen
    omega

theorem inv_bounds {s : Session} (hinv : SessionInv s) {qs : List String}
    (hq : s.questions = some qs) : 1 ≤ s.question_index ∧ s.question_index ≤ qs.length := by
  unfold SessionInv at hinv
  simp only [hq] at hinv
  exact ⟨hinv.2.2.1, hinv.2.2.2.1⟩

theorem handle_error_table_bounds (env : Env) (message : String) (sess : Option Session)
    (hinv : ∀ s, sess = some s → SessionInv s)
    (r : Raised) (h : handle_app_mention_inner env message sess = .error r)
    (s' : Session) (hs' : r.table = some s') :
    ∀ qs, s'.questions = some qs →
      1 ≤ s'.question_index ∧ s'.question_index ≤ qs.length := by
  simp only [handle_app_mention_inner] at h
  repeat' split at h
  all_goals cases h
  all_goals simp only [] at hs'
  all_goals
    first
      | (intro qs hqs; exact inv_bounds (hinv s' hs') hqs)
      | (obtain rfl := Option.some.inj hs'
         intro qs hqs
         exact inv_bounds (getD_inv hinv) hqs)

theorem predict_error_table_bounds (env : Env) (message : String) (sess : Option Session)
    (hinv : ∀ s, sess = some s → SessionInv s)
    (r : Raised) (h : predict_inner env message sess = .error r)
    (s' : Session) (hs' : r.table = some s') :
    ∀ qs, s'.questions = some qs →
      1 ≤ s'.question_index ∧ s'.question_index ≤ qs.length := by
  simp only [predict_inner] at h
  repeat' split at h
  all_goals cases h
  all_goals simp only [] at hs'
  all_goals
    first
      | (intro qs hqs; exact inv_bounds (hinv s' hs') hqs)
      | (obtain rfl := Option.some.inj hs'
         intro qs hqs
         exact inv_bounds (getD_inv hinv) hqs)

theorem predict_record (env : Env) (message : String) (s : Session)
    (qs : List String) (hq : s.questions = some qs) (hin : s.in_questionnaire = true)
    (s' : Session) (hs' : (predict env message (some s)).table = some s')
    (hadv : s'.question_index = s.question_index + 1) :
    (qs.getD (s.question_index - 1) "", message) ∈ s'.answers := by
  unfold predict at hs'
  cases hpi : predict_inner env message (some s) with
  | error r =>
    rw [hpi] at hs'
    simp only [] at hs'
    simp only [predict_inner] at hpi
    repeat' split at hpi
    all_goals cases hpi
    all_goals simp only [] at hs'
    all_goals
      first
        | exact Option.noConfusion hs'
        | (simp_all [mem_dictInsert_self]; done)
        | (simp_all [mem_dictInsert_self]
           subst hs'
           simp_all [mem_dictInsert_self])
        | (obtain rfl := Option.some.inj hs'; exact absurd hadv (by omega))
  | ok r =>
    rw [hpi] at hs'
    simp only [predict_inner] at hpi
    repeat' split at hpi
    all_goals cases hpi
    all_goals simp only [] at hs'
    all_goals
      first
        | exact Option.noConfusion hs'
        | (simp_all [mem_dictInsert_self]; done)
        | (simp_all [mem_dictInsert_self]
           subst hs'
           simp_all [mem_dictInsert_self])
        | (obtain rfl := Option.some.inj hs'; exact absurd hadv (by omega))

theorem handle_record (env : Env) (message : String) (s : Session)
    (qs : List String) (hq : s.questions = some qs) (hin : s.in_questionnaire = true)
    (s' : Session) (hs' : (handle_app_mention env message (some s)).table = some s')
    (hadv : s'.question_index = s.question_index + 1) :
    (qs.getD (s.question_index - 1) "", message) ∈ s'.answers := by
  unfold handle_app_mention at hs'
  cases hpi : handle_app_mention_inner env message (some s) with
  | error r =>
    rw [hpi] at hs'
    simp only [] at hs'
    simp only [handle_app_mention_inner] at hpi
    repeat' split at hpi
    all_goals cases hpi
    all_goals simp only [] at hs'
    all_goals
      first
        | exact Option.noConfusion hs'
        | (simp_all [mem_dictInsert_self]; done)
        | (simp_all [mem_dictInsert_self]
           subst hs'
           simp_all [mem_dictInsert_self])
        | (obtain rfl := Option.some.inj hs'; exact absurd hadv (by omega))
  | ok r =>
    rw [hpi] at hs'
    simp only [handle_app_mention_inner] at hpi
    repeat' split at hpi
    all_goals cases hpi
    all_goals simp only [] at hs'
    all_goals
      first
        | exact Option.noConfusion hs'
        | (simp_all [mem_dictInsert_self]; done)
        | (simp_all [mem_dictInsert_self]
           subst hs'
           simp_all [mem_dictInsert_self])
        | (obtain rfl := Option.some.inj hs'; exact absurd hadv (by omega))

theorem predict_agent_path (env : Env) (message : String) (sess : Option Session)
    (hnq : (sess.getD {}).in_questionnaire = false)
    (hcls : ((strContains (pyLower message) "audit" ||
        strContains (pyLower message) "questionnaire") &&
      !(strContains (pyLower message) "jenkins" ||
        strContains (pyLower message) "mobsf")) = false) :
    predict env message sess =
      if (!envPresent env.openai_key) = true then
        { response := "OpenAI API key is not configured. I can't process this request.",
          table := sess, ciCalls := [], agentInvoked := false, route := .noKey }
      else
        match env.agent with
        | .ok output =>
          { response := output, table := sess, ciCalls := [],
            agentInvoked := true, route := .agentReply }
        | .error e =>
          { response := "Sorry, a critical error occurred: " ++ e ++
              ". Please check the console logs for more details.",
            table := sess, ciCalls := [], agentInvoked := true, route := .caught } := by
  simp only [predict, predict_inner, hnq, hcls, Bool.false_eq_true, if_false]
  cases hk : !envPresent env.openai_key
  · simp only [Bool.false_eq_true, if_false]
    cases env.agent <;> rfl
  · rfl

theorem handle_agent_path (env : Env) (message : String) (sess : Option Session)
    (hnq : (sess.getD {}).in_questionnaire = false)
    (hcls : ((strContains (pyLower message) "audit" ||
        strContains (pyLower message) "questionnaire") &&
      !(strContains (pyLower message) "jenkins" ||
        strContains (pyLower message) "mobsf")) = false) :
    handle_app_mention env message sess =
      if (!envPresent env.openai_key) = true then
        { response := "OpenAI API key is not configured.",
          table := sess, ciCalls := [], agentInvoked := false, route := .noKey }
      else
        match env.agent with
        | .ok output =>
          { response := output,
            table := some { sess.getD {} with
              agent_history := (sess.getD {}).agent_history ++
                [("human", message), ("ai", output)] },
            ciCalls := [], agentInvoked := true, route := .agentReply }
        | .error e =>
          { response := "Sorry, a critical error occurred: " ++ e,
            table := sess, ciCalls := [], agentInvoked := true, route := .caught } := by
  simp only [handle_app_mention, handle_app_mention_inner, hnq, hcls, Bool.false_eq_true,
    if_false]
  cases hk : !envPresent env.openai_key
  · simp only [Bool.false_eq_true, if_false]
    cases env.agent <;> rfl
  · rfl

theorem predict_mobile_final (env : Env) (message : String) :
    predict env message (some mobileFinalSession) =
      match env.connect with
      | .error _ =>
        { response := "Sorry, a critical error occurred: " ++ unboundConnErr ++
            ". Please check the console logs for more details.",
          table := some (mobileFinalRaised message), ciCalls := [message],
          agentInvoked := true, route := .caught }
      | .ok _ =>
        { response :=
            match env.persist with
            | .ok _ =>
              "Thank you! All answers have been recorded in the local database. How else can I help you?"
            | .error e =>
              "Thank you! I have your answers. However, I failed to save them to the database: " ++ e,
          table := none, ciCalls := [message], agentInvoked := false,
          route := .qDone } := by
  cases hc : env.connect with
  | ok u =>
    unfold predict predict_inner
    rw [hc]
    rfl
  | error e =>
    unfold predict predict_inner
    rw [hc]
    rfl

/-! ## Claim theorems -/

/-- C1 counterexample: the claim `len(answers) == currentIndex` is false on
the code.  Starting a questionnaire with "I want an audit" and then answering
"mobile" leaves a session in the table with `inQuestionnaire` true,
`questionSet` set, `question_index = 1` and an empty `answers` dict, so
`len(answers) = 0 ≠ 1 = currentIndex`. -/
theorem c1_counterexample :
    (predict env0 "mobile" (predict env0 "I want an audit" none).table).table
        = some c1CexSession ∧
    c1CexSession.in_questionnaire = true ∧
    c1CexSession.questions.isSome = true ∧
    c1CexSession.answers.length ≠ c1CexSession.question_index := by
  decide

/-- C1 (amended): after every step, every surviving session with
`inQuestionnaire` true and `questionSet` set has exactly `currentIndex - 1`
answers (one per question already asked), not `currentIndex` — provided the
final persistence step has not raised out of the handler.  In the Gradio
variant that means `sqlite3.connect` succeeded (a connect-phase failure
escapes the inner guard via the unbound `conn` in `finally` and retains a
session with `len(answers) = currentIndex = len(questionSet)`); in the Slack
variant both the connect and the write must succeed, since neither is locally
guarded there. -/
theorem c1_answers_count (env : Env) (message : String) (sess : Option Session)
    (hinv : ∀ s, sess = some s → SessionInv s) :
    (env.connect = Except.ok () →
      ∀ s', (predict env message sess).table = some s' →
        s'.in_questionnaire = true → s'.questions.isSome = true →
        s'.answers.length = s'.question_index - 1) ∧
    (env.connect = Except.ok () → env.persist = Except.ok () →
      ∀ s', (handle_app_mention env message sess).table = some s' →
        s'.in_questionnaire = true → s'.questions.isSome = true →
        s'.answers.length = s'.question_index - 1) := by
  constructor
  · intro hconn s' hs' _ hq
    exact inv_answers_length (predict_table_inv env message sess hinv hconn s' hs') hq
  · intro hconn hp s' hs' _ hq
    exact inv_answers_length (handle_table_inv env message sess hinv hconn hp s' hs') hq

/-- C1 witness: `c1_answers_count` applied to the web session right after the
project type was chosen, answering its first question with "yes". -/
theorem c1_answers_count_witness :
    webAnsweredSession.answers.length = webAnsweredSession.question_index - 1 :=
  (c1_answers_count env0 "yes" (some webStartSession)
      (fun s hs => by cases hs; decide)).1 rfl
    webAnsweredSession (by decide) (by decide) (by decide)

/-- C2 counterexample: answering the mobile URL-disclosure question (the last
mobile question) does make exactly one CI-trigger call, but the returned
status text does NOT appear in the next response: the completion message is
returned without it. -/
theorem c2_counterexample :
    (predict envJenkinsOk "https://x.test/app" (some mobileFinalSession)).ciCalls
        = ["https://x.test/app"] ∧
    (trigger_jenkins_build envJenkinsOk "https://x.test/app").1 =
      "Successfully triggered Jenkins job 'scan' for endpoint 'https://x.test/app'. Status: 201" ∧
    strContains (predict envJenkinsOk "https://x.test/app" (some mobileFinalSession)).response
      (trigger_jenkins_build envJenkinsOk "https://x.test/app").1 = false := by
  decide

/-- C2 (amended): answering a URL-disclosure question makes exactly one
CI-trigger call with the message text as endpoint, under every delegate
outcome.  For the web variant (question 1 of 13) the returned status text
appears in the next response; for the mobile variant the URL question is the
last question, so the call is made but its status text is dropped: when the
persistence connect phase succeeds the completion (or persistence-caveat)
message is returned without it, and when the connect phase fails the generic
apology is returned instead (see C3) — in no outcome does the status reach
the user. -/
theorem c2_url_trigger (env : Env) (message : String) :
    ((predict env message (some webStartSession)).ciCalls = [message] ∧
      ∃ pre post, (predict env message (some webStartSession)).response =
        pre ++ (trigger_jenkins_build env message).1 ++ post) ∧
    ((predict env message (some mobileFinalSession)).ciCalls = [message] ∧
      (env.connect = Except.ok () →
        (predict env message (some mobileFinalSession)).response =
          (match env.persist with
            | .ok _ =>
              "Thank you! All answers have been recorded in the local database. How else can I help you?"
            | .error e =>
              "Thank you! I have your answers. However, I failed to save them to the database: " ++ e))) := by
  refine ⟨⟨rfl, ?web⟩, ?calls, fun hconn => ?resp⟩
  case calls =>
    rw [predict_mobile_final env message]
    cases hc : env.connect <;> rfl
  case resp =>
    rw [predict_mobile_final env message, hconn]
  have htr := trigger_ne_empty env message
  have hresp : (predict env message (some webStartSession)).response =
      "Okay, I'm starting a scan on that endpoint. " ++ (trigger_jenkins_build env message).1 ++
        "\n\nIn the meantime, let's continue. " ++ "Are websockets used in the project?" := by
    show (if (trigger_jenkins_build env message).1 = ""
          then "Are websockets used in the project?"
          else "Okay, I'm starting a scan on that endpoint. " ++
            (trigger_jenkins_build env message).1 ++
            "\n\nIn the meantime, let's continue. " ++
            "Are websockets used in the project?") = _
    rw [if_neg htr]
  refine ⟨"Okay, I'm starting a scan on that endpoint. ",
    "\n\nIn the meantime, let's continue. " ++ "Are websockets used in the project?", ?_⟩
  rw [hresp]
  exact String.append_assoc _ _ _

/-- C2 witness: `c2_url_trigger` at the empty environment (connect phase
succeeds, persistence write succeeds). -/
theorem c2_url_trigger_witness :
    (predict env0 "https://x.test/app" (some mobileFinalSession)).ciCalls =
      ["https://x.test/app"] ∧
    (predict env0 "https://x.test/app" (some mobileFinalSession)).response =
      "Thank you! All answers have been recorded in the local database. How else can I help you?" :=
  ⟨(c2_url_trigger env0 "https://x.test/app").2.1,
   (c2_url_trigger env0 "https://x.test/app").2.2 rfl⟩

/-- C3 counterexample: in the Slack variant the SQLite insert is not locally
guarded, so a persistence failure on the final answer yields the generic
apology (not a thank-you with the reason appended) and the session stays in
the table. -/
theorem c3_counterexample :
    (handle_app_mention envPersistFail "https://x.test/app" (some mobileFinalSession)).response =
      "Sorry, a critical error occurred: disk full" ∧
    (handle_app_mention envPersistFail "https://x.test/app" (some mobileFinalSession)).table =
      some c3CexSession := by
  decide

/-- C3 (amended): in the Gradio variant, when `sqlite3.connect` succeeds, a
failure of the subsequent write still returns a thank-you message with the
failure reason appended and the session is deleted in both outcomes; but when
`sqlite3.connect` itself fails, the inner `except` is defeated by the
`finally` block (`if conn:` raises `UnboundLocalError`, `conn` being
unbound), so the generic apology is returned and the mutated session stays in
the table.  In the Slack variant no persistence failure is locally guarded:
any `sqlite3.Error` yields the apology with the session retained, and only on
success is the thank-you returned and the session deleted. -/
theorem c3_persist_outcomes (env : Env) (message : String) :
    (env.connect = Except.ok () →
      (predict env message (some mobileFinalSession)).table = none ∧
      (predict env message (some mobileFinalSession)).response =
        (match env.persist with
          | .ok _ =>
            "Thank you! All answers have been recorded in the local database. How else can I help you?"
          | .error e =>
            "Thank you! I have your answers. However, I failed to save them to the database: " ++ e)) ∧
    (∀ e, env.connect = Except.error e →
      (predict env message (some mobileFinalSession)).response =
        "Sorry, a critical error occurred: " ++ unboundConnErr ++
          ". Please check the console logs for more details." ∧
      (predict env message (some mobileFinalSession)).table =
        some (mobileFinalRaised message)) ∧
    (env.connect = Except.ok () → env.persist = Except.ok () →
      (handle_app_mention env message (some mobileFinalSession)).table = none ∧
      (handle_app_mention env message (some mobileFinalSession)).response =
        "Thank you! All answers have been recorded. How else can I help?") := by
  refine ⟨fun hconn => ?_, fun e hconn => ?_, fun hconn hp => ?_⟩
  · rw [predict_mobile_final env message, hconn]
    exact ⟨rfl, rfl⟩
  · rw [predict_mobile_final env message, hconn]
    exact ⟨rfl, rfl⟩
  · have hstep : handle_app_mention env message (some mobileFinalSession) =
        { response := "Thank you! All answers have been recorded. How else can I help?",
          table := none, ciCalls := [message], agentInvoked := false, route := .qDone } := by
      unfold handle_app_mention handle_app_mention_inner
      rw [hconn, hp]
      rfl
    rw [hstep]
    exact ⟨rfl, rfl⟩

/-- C3 witness: `c3_persist_outcomes` at a connect-phase failure (Gradio
retains the session) and at a fully successful persistence (Slack deletes
it). -/
theorem c3_persist_outcomes_witness :
    (predict envConnectFail "https://x.test/app" (some mobileFinalSession)).table =
      some (mobileFinalRaised "https://x.test/app") ∧
    (handle_app_mention env0 "https://x.test/app" (some mobileFinalSession)).table = none ∧
    (handle_app_mention env0 "https://x.test/app" (some mobileFinalSession)).response =
      "Thank you! All answers have been recorded. How else can I help?" :=
  ⟨((c3_persist_outcomes envConnectFail "https://x.test/app").2.1
      "unable to open database file" rfl).2,
   ((c3_persist_outcomes env0 "https://x.test/app").2.2 rfl rfl).1,
   ((c3_persist_outcomes env0 "https://x.test/app").2.2 rfl rfl).2⟩

/-- C4 counterexample: the other CI-trigger implementation,
`run_jenkins_job` in `src/tools/jenkins_tool.py`, violates the claim: with
all four configuration values absent it still attempts the network call, and
a transport failure propagates as an exception (`Except.error`) instead of
being returned as a status string. -/
theorem c4_counterexample :
    jenkinsConfigured env0.jenkins = false ∧
    (run_jenkins_job env0 "example.com").2 = true ∧
    (run_jenkins_job env0 "example.com").1 = Except.error "connection error" :=
  ⟨by decide, by decide, rfl⟩

/-- C4 (amended): the claim holds for `trigger_jenkins_build` (the
implementation both message handlers use): with any configuration value
absent it returns the fixed error string without issuing a network request,
and on every path — missing config, transport exception, non-success status,
success — it returns a non-empty status string rather than raising.
`run_jenkins_job` (`src/tools/jenkins_tool.py`) does not satisfy this (see
the counterexample). -/
theorem c4_trigger_never_raises (env : Env) (endpoint : String) :
    (jenkinsConfigured env.jenkins = false →
      trigger_jenkins_build env endpoint =
        ("Error: Jenkins environment variables (JENKINS_URL, JENKINS_USER, JENKINS_API_TOKEN, JENKINS_JOB_NAME) are not set.",
          false)) ∧
    (trigger_jenkins_build env endpoint).1 ≠ "" ∧
    (∀ e, jenkinsConfigured env.jenkins = true → env.net = .exn e →
      trigger_jenkins_build env endpoint =
        ("Failed to trigger Jenkins job '" ++ pyStr env.jenkins.jobName ++ "'. Error: " ++ e,
          true)) ∧
    (∀ code, jenkinsConfigured env.jenkins = true → env.net = .ok code → 400 ≤ code →
      trigger_jenkins_build env endpoint =
        ("Failed to trigger Jenkins job '" ++ pyStr env.jenkins.jobName ++ "'. Error: HTTP " ++
          toString code, true)) ∧
    (∀ code, jenkinsConfigured env.jenkins = true → env.net = .ok code → code < 400 →
      trigger_jenkins_build env endpoint =
        ("Successfully triggered Jenkins job '" ++ pyStr env.jenkins.jobName ++
          "' for endpoint '" ++ endpoint ++ "'. Status: " ++ toString code, true)) := by
  refine ⟨?_, trigger_ne_empty env endpoint, ?_, ?_, ?_⟩
  · intro hmiss
    simp [trigger_jenkins_build, hmiss]
  · intro e hcfg hnet
    simp [trigger_jenkins_build, hcfg, hnet]
  · intro code hcfg hnet h400
    simp [trigger_jenkins_build, hcfg, hnet, h400]
  · intro code hcfg hnet hlt
    simp [trigger_jenkins_build, hcfg, hnet, Nat.not_le.mpr hlt]

/-- C4 witness: `c4_trigger_never_raises` at an unconfigured environment. -/
theorem c4_trigger_never_raises_witness :
    trigger_jenkins_build env0 "example.com" =
      ("Error: Jenkins environment variables (JENKINS_URL, JENKINS_USER, JENKINS_API_TOKEN, JENKINS_JOB_NAME) are not set.",
        false) :=
  (c4_trigger_never_raises env0 "example.com").1 (by decide)

/-- C5: when a message matches both the audit keywords and the tool keywords
and the session is not mid-questionnaire, no questionnaire is started (no
surviving session has `inQuestionnaire` set) and the message is routed to the
agent path (agent reply, fail-closed "no key" reply, or caught agent error)
in both variants. -/
theorem c5_tool_precedence (env : Env) (message : String) (sess : Option Session)
    (hnq : (sess.getD {}).in_questionnaire = false)
    (haudit : (strContains (pyLower message) "audit" ||
      strContains (pyLower message) "questionnaire") = true)
    (htool : (strContains (pyLower message) "jenkins" ||
      strContains (pyLower message) "mobsf") = true) :
    (((predict env message sess).route = Route.noKey ∨
      (predict env message sess).route = Route.agentReply ∨
      (predict env message sess).route = Route.caught) ∧
     (∀ s', (predict env message sess).table = some s' → s'.in_questionnaire = false)) ∧
    (((handle_app_mention env message sess).route = Route.noKey ∨
      (handle_app_mention env message sess).route = Route.agentReply ∨
      (handle_app_mention env message sess).route = Route.caught) ∧
     (∀ s', (handle_app_mention env message sess).table = some s' →
        s'.in_questionnaire = false)) := by
  have hcls : ((strContains (pyLower message) "audit" ||
      strContains (pyLower message) "questionnaire") &&
    !(strContains (pyLower message) "jenkins" ||
      strContains (pyLower message) "mobsf")) = false := by
    rw [haudit, htool]
    rfl
  have hsome : ∀ s', sess = some s' → s'.in_questionnaire = false := by
    intro s' hs'
    subst hs'
    simpa using hnq
  constructor
  · rw [predict_agent_path env message sess hnq hcls]
    cases hk : !envPresent env.openai_key
    · simp only [Bool.false_eq_true, if_false]
      cases env.agent with
      | ok output => exact ⟨Or.inr (Or.inl rfl), hsome⟩
      | error e => exact ⟨Or.inr (Or.inr rfl), hsome⟩
    · exact ⟨Or.inl rfl, hsome⟩
  · rw [handle_agent_path env message sess hnq hcls]
    cases hk : !envPresent env.openai_key
    · simp only [Bool.false_eq_true, if_false]
      cases env.agent with
      | ok output =>
        refine ⟨Or.inr (Or.inl rfl), ?_⟩
        intro s' hs'
        obtain rfl := Option.some.inj hs'
        simpa using hnq
      | error e => exact ⟨Or.inr (Or.inr rfl), hsome⟩
    · exact ⟨Or.inl rfl, hsome⟩

/-- C5 witness: a fresh session and the message "run an audit with jenkins"
is routed to the agent path in both variants. -/
theorem c5_tool_precedence_witness :
    ((predict env0 "run an audit with jenkins" none).route = Route.noKey ∨
      (predict env0 "run an audit with jenkins" none).route = Route.agentReply ∨
      (predict env0 "run an audit with jenkins" none).route = Route.caught) ∧
    ((handle_app_mention env0 "run an audit with jenkins" none).route = Route.noKey ∨
      (handle_app_mention env0 "run an audit with jenkins" none).route = Route.agentReply ∨
      (handle_app_mention env0 "run an audit with jenkins" none).route = Route.caught) :=
  ⟨(c5_tool_precedence env0 "run an audit with jenkins" none rfl
      (by decide) (by decide)).1.1,
   (c5_tool_precedence env0 "run an audit with jenkins" none rfl
      (by decide) (by decide)).2.1⟩

/-- C6: after every step, every surviving session with a question set has
`1 ≤ currentIndex ≤ len(questionSet)` (so in particular
`0 ≤ currentIndex ≤ len(questionSet)`), and whenever a step advances
`currentIndex` by one, the answer to `questionSet[currentIndex-1]` (the
question just answered) is recorded in `answers` in the resulting state —
both for the Gradio and the Slack variant. -/
theorem c6_index_bounds (env : Env) (message : String) (s : Session) (hinv : SessionInv s) :
    (∀ s', (predict env message (some s)).table = some s' →
      ∀ qs, s'.questions = some qs →
        1 ≤ s'.question_index ∧ s'.question_index ≤ qs.length) ∧
    (∀ s', (handle_app_mention env message (some s)).table = some s' →
      ∀ qs, s'.questions = some qs →
        1 ≤ s'.question_index ∧ s'.question_index ≤ qs.length) ∧
    (∀ qs, s.questions = some qs → s.in_questionnaire = true →
      ∀ s', (predict env message (some s)).table = some s' →
        s'.question_index = s.question_index + 1 →
        (qs.getD (s.question_index - 1) "", message) ∈ s'.answers) ∧
    (∀ qs, s.questions = some qs → s.in_questionnaire = true →
      ∀ s', (handle_app_mention env message (some s)).table = some s' →
        s'.question_index = s.question_index + 1 →
        (qs.getD (s.question_index - 1) "", message) ∈ s'.answers) := by
  have hinv' : ∀ t, some s = some t → SessionInv t := fun t ht => by cases ht; exact hinv
  refine ⟨?_, ?_, ?_, ?_⟩
  · intro s' hs' qs hqs
    unfold predict at hs'
    cases hpi : predict_inner env message (some s) with
    | ok r =>
      rw [hpi] at hs'
      exact inv_bounds (predict_inner_ok_inv env message (some s) hinv' r hpi s' hs') hqs
    | error r =>
      rw [hpi] at hs'
      simp only [] at hs'
      exact predict_error_table_bounds env message (some s) hinv' r hpi s' hs' qs hqs
  · intro s' hs' qs hqs
    unfold handle_app_mention at hs'
    cases hpi : handle_app_mention_inner env message (some s) with
    | ok r =>
      rw [hpi] at hs'
      exact inv_bounds (handle_inner_ok_inv env message (some s) hinv' r hpi s' hs') hqs
    | error r =>
      rw [hpi] at hs'
      simp only [] at hs'
      exact handle_error_table_bounds env message (some s) hinv' r hpi s' hs' qs hqs
  · intro qs hq hin s' hs' hadv
    exact predict_record env message s qs hq hin s' hs' hadv
  · intro qs hq hin s' hs' hadv
    exact handle_record env message s qs hq hin s' hs' hadv

/-- C6 witness: `c6_index_bounds` applied to answering the first web
question with "yes". -/
theorem c6_index_bounds_witness :
    (1 ≤ webAnsweredSession.question_index ∧
      webAnsweredSession.question_index ≤ WEB_QUESTIONS.length) ∧
    ("What is the website URL?", "yes") ∈ webAnsweredSession.answers :=
  ⟨(c6_index_bounds env0 "yes" webStartSession (by decide)).1 webAnsweredSession (by decide)
      WEB_QUESTIONS (by decide),
   (c6_index_bounds env0 "yes" webStartSession (by decide)).2.2.1 WEB_QUESTIONS rfl
      rfl webAnsweredSession (by decide) (by decide)⟩

/-- C7: answering the final question removes the session from the table in
every case in which the completion message is returned: the Gradio variant
whenever `sqlite3.connect` succeeds (under both write outcomes), the Slack
variant when the whole persistence step succeeds.  A subsequent message under
the same key is then treated as a fresh session: it is classified anew and
never resumes a questionnaire branch. -/
theorem c7_completion_removes (env : Env) (message : String) (s : Session)
    (hin : s.in_questionnaire = true) (qs : List String) (hq : s.questions = some qs)
    (hidx : qs.length ≤ s.question_index) :
    (env.connect = Except.ok () → (predict env message (some s)).table = none) ∧
    (env.connect = Except.ok () → env.persist = Except.ok () →
      (handle_app_mention env message (some s)).table = none) ∧
    (∀ env2 msg2,
      ((predict env2 msg2 none).route = Route.startAudit ∨
        (predict env2 msg2 none).route = Route.noKey ∨
        (predict env2 msg2 none).route = Route.agentReply ∨
        (predict env2 msg2 none).route = Route.caught) ∧
      ((handle_app_mention env2 msg2 none).route = Route.startAudit ∨
        (handle_app_mention env2 msg2 none).route = Route.noKey ∨
        (handle_app_mention env2 msg2 none).route = Route.agentReply ∨
        (handle_app_mention env2 msg2 none).route = Route.caught)) := by
  refine ⟨?_, ?_, ?_⟩
  · intro hconn
    simp only [predict, predict_inner, Option.getD_some, hin, hq, hconn]
    rw [if_pos trivial, if_neg (Nat.not_lt.mpr hidx)]
  · intro hconn hp
    simp only [handle_app_mention, handle_app_mention_inner, Option.getD_some, hin, hq,
      hconn, hp]
    rw [if_pos trivial, if_neg (Nat.not_lt.mpr hidx)]
  · intro env2 msg2
    constructor
    · unfold predict
      cases hpi : predict_inner env2 msg2 none with
      | error r => simp
      | ok r =>
        simp only [predict_inner, Option.getD_none, Bool.false_eq_true, if_false] at hpi
        repeat' split at hpi
        all_goals cases hpi
        all_goals simp
    · unfold handle_app_mention
      cases hpi : handle_app_mention_inner env2 msg2 none with
      | error r => simp
      | ok r =>
        simp only [handle_app_mention_inner, Option.getD_none, Bool.false_eq_true,
          if_false] at hpi
        repeat' split at hpi
        all_goals cases hpi
        all_goals simp

/-- C7 witness: `c7_completion_removes` at the mobile session answering its
final question. -/
theorem c7_completion_removes_witness :
    (predict env0 "https://x.test/app" (some mobileFinalSession)).table = none ∧
    (handle_app_mention env0 "https://x.test/app" (some mobileFinalSession)).table = none :=
  ⟨(c7_completion_removes env0 "https://x.test/app" mobileFinalSession rfl
      MOBILE_QUESTIONS rfl (by decide)).1 rfl,
   (c7_completion_removes env0 "https://x.test/app" mobileFinalSession rfl
      MOBILE_QUESTIONS rfl (by decide)).2.1 rfl rfl⟩

/-- C8: every exception raised inside the handler body — other than the
persistence failures, which the claim excludes (the Slack variant's unguarded
write and the Gradio variant's connect-phase failure that defeats the inner
guard via the unbound `conn` in `finally`) — is caught and turned into the
apology string containing the error text, while the session-table entry is
left exactly as it was before the step (outside the persistence step the only
delegate that can raise is the agent call, which runs before any state
mutation). -/
theorem c8_errors_caught (env : Env) (message : String) (sess : Option Session) :
    (env.connect = Except.ok () →
      ∀ r, predict_inner env message sess = .error r →
        predict env message sess =
          { response := "Sorry, a critical error occurred: " ++ r.err ++
              ". Please check the console logs for more details.",
            table := sess, ciCalls := r.ciCalls, agentInvoked := true, route := .caught }) ∧
    (env.connect = Except.ok () → env.persist = Except.ok () →
      ∀ r, handle_app_mention_inner env message sess = .error r →
        handle_app_mention env message sess =
          { response := "Sorry, a critical error occurred: " ++ r.err,
            table := sess, ciCalls := r.ciCalls, agentInvoked := true, route := .caught }) := by
  constructor
  · intro hconn r hr
    unfold predict
    rw [hr]
    simp only []
    rw [predict_inner_error_table env message sess r hconn hr]
  · intro hconn hp r hr
    unfold handle_app_mention
    rw [hr]
    simp only []
    rw [handle_inner_error_table env message sess r hconn hp hr]

/-- C8 witness: `c8_errors_caught` at an agent-call failure with error text
"boom" on a fresh session. -/
theorem c8_errors_caught_witness :
    predict envAgentFail "hello" none =
      { response := "Sorry, a critical error occurred: boom. Please check the console logs for more details.",
        table := none, ciCalls := [], agentInvoked := true, route := .caught } ∧
    handle_app_mention envAgentFail "hello" none =
      { response := "Sorry, a critical error occurred: boom",
        table := none, ciCalls := [], agentInvoked := true, route := .caught } :=
  ⟨(c8_errors_caught envAgentFail "hello" none).1 rfl
      { err := "boom", table := none, ciCalls := [] } rfl,
   (c8_errors_caught envAgentFail "hello" none).2 rfl rfl
      { err := "boom", table := none, ciCalls := [] } rfl⟩

/-- C9: a message that reaches the agent path while no language-model key is
configured gets the fixed "not configured" reply, the agent is never invoked,
the table entry is unchanged, and no exception is raised — in both
variants. -/
theorem c9_no_key (env : Env) (message : String) (sess : Option Session)
    (hnq : (sess.getD {}).in_questionnaire = false)
    (hcls : ((strContains (pyLower message) "audit" ||
        strContains (pyLower message) "questionnaire") &&
      !(strContains (pyLower message) "jenkins" ||
        strContains (pyLower message) "mobsf")) = false)
    (hkey : envPresent env.openai_key = false) :
    predict env message sess =
      { response := "OpenAI API key is not configured. I can't process this request.",
        table := sess, ciCalls := [], agentInvoked := false, route := .noKey } ∧
    handle_app_mention env message sess =
      { response := "OpenAI API key is not configured.",
        table := sess, ciCalls := [], agentInvoked := false, route := .noKey } := by
  constructor
  · rw [predict_agent_path env message sess hnq hcls, hkey]
    rfl
  · rw [handle_agent_path env message sess hnq hcls, hkey]
    rfl

/-- C9 witness: `c9_no_key` at a fresh session, the message "hello there",
and the empty environment (no key configured). -/
theorem c9_no_key_witness :
    predict env0 "hello there" none =
      { response := "OpenAI API key is not configured. I can't process this request.",
        table := none, ciCalls := [], agentInvoked := false, route := .noKey } ∧
    handle_app_mention env0 "hello there" none =
      { response := "OpenAI API key is not configured.",
        table := none, ciCalls := [], agentInvoked := false, route := .noKey } :=
  c9_no_key env0 "hello there" none rfl (by decide) rfl

/-- C10: in the Slack (substring-matching) variant, while the session awaits
the project type, a message containing both "mobile" and "web" selects the
mobile question set: the "mobile" check wins, `projectType` becomes "mobile"
and `MOBILE_QUESTIONS[0]` is returned. -/
theorem c10_mobile_precedence (env : Env) (message : String) (s : Session)
    (hin : s.in_questionnaire = true) (hq : s.questions = none)
    (hmob : strContains (pyLower message) "mobile" = true)
    (hweb : strContains (pyLower message) "web" = true) :
    handle_app_mention env message (some s) =
      { response := "Does the mobile app have any force-update functionality?",
        table := some ({ s with
          project_type := some "mobile"
          questions := some MOBILE_QUESTIONS
          question_index := 1 }),
        ciCalls := [], agentInvoked := false, route := .qProjectType } := by
  simp only [handle_app_mention, handle_app_mention_inner, Option.getD_some, hin, hq, hmob,
    Bool.true_or]
  rfl

/-- C10 witness: `c10_mobile_precedence` at the message "mobile web". -/
theorem c10_mobile_precedence_witness :
    handle_app_mention env0 "mobile web" (some awaitingTypeSession) =
      { response := "Does the mobile app have any force-update functionality?",
        table := some ({ awaitingTypeSession with
          project_type := some "mobile"
          questions := some MOBILE_QUESTIONS
          question_index := 1 }),
        ciCalls := [], agentInvoked := false, route := .qProjectType } :=
  c10_mobile_precedence env0 "mobile web" awaitingTypeSession rfl rfl (by decide) (by decide)

end In4apene
